import Mathlib

/-!
Verification of the HSA conformance-test framework sources.

This file gives a shallow Lean embedding of the parts of the code base that
the verified properties talk about:

* `src/hexl/hexl_base/Scenario.cpp` — the scenario command machinery
  (`CommandSequence::Execute`, `CommandSequence::Finish`,
  `DispatchExecuteErrorCommand::Execute`).
* the memory-fence test family (`MemoryFenceTest::ExpectedResult`).
* `src/libTestGen/HSAILTestGenEmulator.cpp` — the instruction emulator
  (`undefValue`/`unimplemented`/`emptyDstValue`/`emptyMemValue`,
  `cvt_f2i`, `f2i_saturate`, `getRoundingTestsNum`, `makeRoundingTestsData`).
* the test-data value container (`Val::eq` and friends) and the test-data
  provider (`TestDataProvider::registerOperand`,
  `OperandTestDataImpl::addRndValue`).

Stateful C++ code is embedded by explicit state passing: a runtime action
becomes a function `S → Bool × S` over an abstract state type `S`.
C++ machine integers are embedded as `Nat`/`Int` with explicit reductions
modulo `2 ^ w` where wrap-around matters.
-/

/-! ## Scenario command machinery (Scenario.cpp)

A `Command` is a polymorphic unit of runtime action.  Its two virtual entry
points `Execute` and `Finish` both receive the mutable `RuntimeState` and
return a success flag; we embed them as explicit state transformers. -/

/-- Embedding of `hexl::scenario::Command`: the two virtual members
`Execute(RuntimeState*)` and `Finish(RuntimeState*)`, each returning `bool`
and possibly mutating the runtime state. -/
structure Command (S : Type) where
  execute : S → Bool × S
  finish : S → Bool × S

namespace CommandSequence

/-- Embedding of `CommandSequence::Execute` (Scenario.cpp:45-52):
walk the owned command list in order; as soon as a command's `Execute`
returns `false`, return `false` without touching the remaining commands. -/
def Execute {S : Type} : List (Command S) → S → Bool × S
  | [], s => (true, s)
  | c :: cs, s =>
    let r := c.execute s
    if r.1 then Execute cs r.2 else (false, r.2)

/-- Embedding of `CommandSequence::Finish` (Scenario.cpp:54-61):
`bool result = true; for (c : commands) result &= c->Finish(rt);`.
The fold mirrors the loop: the accumulator carries the running AND and the
threaded runtime state, and every command's `Finish` is invoked. -/
def Finish {S : Type} (cs : List (Command S)) (s : S) : Bool × S :=
  cs.foldl (fun acc c => let r := c.finish acc.2; (acc.1 && r.1, r.2)) (true, s)

end CommandSequence

/-- Trace of `CommandSequence::Finish`: the list of the individual commands'
`Finish` results in invocation order, together with the final state.  Used to
state that `Finish` invokes every command and ANDs all results. -/
def finishResults {S : Type} : List (Command S) → S → List Bool × S
  | [], s => ([], s)
  | c :: cs, s =>
    let r := c.finish s
    let rest := finishResults cs r.2
    (r.1 :: rest.1, rest.2)

lemma finish_foldl_eq {S : Type} (cs : List (Command S)) :
    ∀ (s : S) (b : Bool),
      cs.foldl (fun acc c => let r := c.finish acc.2; (acc.1 && r.1, r.2)) (b, s)
        = (b && ((finishResults cs s).1.all id), (finishResults cs s).2) := by
  induction cs with
  | nil => intro s b; simp [finishResults]
  | cons c cs ih =>
      intro s b
      simp only [List.foldl, finishResults, List.all_cons, id]
      rw [ih]
      simp [Bool.and_assoc]

lemma finish_eq_all {S : Type} (cs : List (Command S)) (s : S) :
    CommandSequence.Finish cs s
      = ((finishResults cs s).1.all id, (finishResults cs s).2) := by
  unfold CommandSequence.Finish
  rw [finish_foldl_eq]
  simp

lemma finishResults_length {S : Type} (cs : List (Command S)) :
    ∀ s : S, ((finishResults cs s).1).length = cs.length := by
  induction cs with
  | nil => intro s; simp [finishResults]
  | cons c cs ih => intro s; simp [finishResults, ih]

lemma execute_shortCircuit {S : Type} (pre : List (Command S)) :
    ∀ (c : Command S) (post : List (Command S)) (s s₁ s₂ : S),
      CommandSequence.Execute pre s = (true, s₁) →
      c.execute s₁ = (false, s₂) →
      CommandSequence.Execute (pre ++ c :: post) s = (false, s₂) := by
  induction pre with
  | nil =>
      intro c post s s₁ s₂ h1 h2
      simp only [CommandSequence.Execute] at h1
      obtain ⟨rfl⟩ : s = s₁ := by
        have := congrArg Prod.snd h1; simpa using this
      simp [CommandSequence.Execute, h2]
  | cons p ps ih =>
      intro c post s s₁ s₂ h1 h2
      simp only [CommandSequence.Execute] at h1 ⊢
      by_cases hp : (p.execute s).1 = true
      · simp only [hp, if_true] at h1 ⊢
        exact ih c post _ s₁ s₂ h1 h2
      · simp only [Bool.not_eq_true] at hp
        simp [hp] at h1

/-- C1: `CommandSequence::Execute` runs commands in order and stops at the
first command whose `Execute` returns `false` — it returns `false` and the
commands after the failing one are never executed (the result does not depend
on `post`) — while `CommandSequence::Finish` invokes `Finish` on every command
of the sequence regardless of any earlier `Execute` failure and returns the
logical AND of all the commands' `Finish` results. -/
theorem commandSequence_execute_stops_finish_runs_all {S : Type}
    (pre post : List (Command S)) (c : Command S) (s s₁ s₂ : S)
    (h1 : CommandSequence.Execute pre s = (true, s₁))
    (h2 : c.execute s₁ = (false, s₂)) :
    CommandSequence.Execute (pre ++ c :: post) s = (false, s₂) ∧
    (∀ (cs : List (Command S)) (t : S),
      CommandSequence.Finish cs t
          = ((finishResults cs t).1.all id, (finishResults cs t).2) ∧
      ((finishResults cs t).1).length = cs.length) := by
  refine ⟨execute_shortCircuit pre c post s s₁ s₂ h1 h2, ?_⟩
  intro cs t
  exact ⟨finish_eq_all cs t, finishResults_length cs t⟩

/-- Sample command used by witnesses: succeeds, bumps the state. -/
def cmdOk : Command Nat :=
  ⟨fun s => (true, s + 1), fun s => (true, s + 1)⟩

/-- Sample command used by witnesses: `Execute` fails, `Finish` fails. -/
def cmdFail : Command Nat :=
  ⟨fun s => (false, s + 10), fun s => (false, s + 10)⟩

theorem commandSequence_execute_stops_finish_runs_all_witness :
    CommandSequence.Execute ([cmdOk] ++ cmdFail :: [cmdOk]) 0 = (false, 11) ∧
    (∀ (cs : List (Command Nat)) (t : Nat),
      CommandSequence.Finish cs t
          = ((finishResults cs t).1.all id, (finishResults cs t).2) ∧
      ((finishResults cs t).1).length = cs.length) :=
  commandSequence_execute_stops_finish_runs_all [cmdOk] [cmdOk] cmdFail 0 1 11
    rfl rfl

/-! ## DispatchExecuteErrorCommand (Scenario.cpp:612-627) -/

/-- Embedding of the runtime entry points used by
`DispatchExecuteErrorCommand`: `RuntimeState::DispatchExecute` and
`RuntimeState::IsQueueError`, as state transformers returning `bool`. -/
structure RuntimeState (S : Type) where
  dispatchExecute : String → S → Bool × S
  isQueueError : S → Bool × S

/-- Embedding of `DispatchExecuteErrorCommand::Execute`:
`return !rt->DispatchExecute(dispatchId) && rt->IsQueueError();`.
C++ `&&` short-circuits, so `IsQueueError` runs only when `DispatchExecute`
returned `false`. -/
def DispatchExecuteErrorCommand.Execute {S : Type}
    (rt : RuntimeState S) (dispatchId : String) (s : S) : Bool × S :=
  let r := rt.dispatchExecute dispatchId s
  if r.1 then (false, r.2) else rt.isQueueError r.2

/-- C7: the `dispatch_execute_error` command's `Execute` returns `true` if and
only if the runtime's `DispatchExecute` call returns `false` AND the runtime's
`IsQueueError` query (run on the post-dispatch state) returns `true`; any
other combination makes the command fail. -/
theorem dispatchExecuteError_true_iff {S : Type}
    (rt : RuntimeState S) (dispatchId : String) (s : S) :
    (DispatchExecuteErrorCommand.Execute rt dispatchId s).1 = true ↔
      ((rt.dispatchExecute dispatchId s).1 = false ∧
        (rt.isQueueError (rt.dispatchExecute dispatchId s).2).1 = true) := by
  unfold DispatchExecuteErrorCommand.Execute
  by_cases h : (rt.dispatchExecute dispatchId s).1 = true
  · simp [h]
  · simp only [Bool.not_eq_true] at h
    simp [h]

/-! ## MemoryFenceTest (MemoryFenceTests.cpp) -/

/-- BRIG opcodes relevant to the memory-fence test family: the opcode under
test is either `LD` or `ST`; every other opcode falls into the `default`
branch of `ExpectedResult`.  A few representative other opcodes stand in for
the rest of the (finite) C++ enum. -/
inductive BrigOpcode
  | LD
  | ST
  | ATOMIC
  | MEMFENCE
  | ADD
deriving DecidableEq

/-- Runtime value type tags used by the memory-fence tests. -/
inductive MVType
  | MV_UINT32
  | MV_UINT64
deriving DecidableEq

/-- Embedding of the hexl `Value` objects that `ExpectedResult` builds: a type
tag plus the numeric payload handed to the `Value(ValueType, …)` constructor. -/
structure Value where
  type : MVType
  bits : Nat
deriving DecidableEq

/-- `MemoryFenceTest::workgroupSizeX = 256` (static const). -/
def workgroupSizeX : Nat := 256

/-- Embedding of `MemoryFenceTest::GetInputValueForWI`: the per-work-item
input value is the work-item index for `ST` and for every other opcode. -/
def GetInputValueForWI (opcode : BrigOpcode) (wi : Nat) : Nat :=
  match opcode with
  | .ST => wi
  | _ => wi

/-- Embedding of `MemoryFenceTest::ExpectedResult`:
`LD ↦ Value(MV_UINT32, i)`, `ST ↦ Value(MV_UINT32, workgroupSizeX - 1)`,
`default ↦ Value(MV_UINT32, 2)`. -/
def ExpectedResult (opcode : BrigOpcode) (i : Nat) : Value :=
  match opcode with
  | .LD => ⟨.MV_UINT32, i⟩
  | .ST => ⟨.MV_UINT32, workgroupSizeX - 1⟩
  | _ => ⟨.MV_UINT32, 2⟩

/-- C2: in the memory-fence test family the expected per-work-item result is:
for a load-under-test, that work-item's own input index; for a store-under-test
the value `workgroupSizeX - 1 = 255` for every work-item; for any other opcode
under test the fixed sentinel `2` — with the store and sentinel cases
independent of which work-item is queried. -/
theorem memoryFence_expectedResult (i j : Nat) (op : BrigOpcode)
    (hLd : op ≠ .LD) (hSt : op ≠ .ST) :
    ExpectedResult .LD i = ⟨.MV_UINT32, GetInputValueForWI .LD i⟩ ∧
    ExpectedResult .ST i = ⟨.MV_UINT32, workgroupSizeX - 1⟩ ∧
    ExpectedResult .ST i = ⟨.MV_UINT32, 255⟩ ∧
    ExpectedResult op i = ⟨.MV_UINT32, 2⟩ ∧
    ExpectedResult .ST i = ExpectedResult .ST j ∧
    ExpectedResult op i = ExpectedResult op j := by
  cases op with
  | LD => exact absurd rfl hLd
  | ST => exact absurd rfl hSt
  | ATOMIC => exact ⟨rfl, rfl, rfl, rfl, rfl, rfl⟩
  | MEMFENCE => exact ⟨rfl, rfl, rfl, rfl, rfl, rfl⟩
  | ADD => exact ⟨rfl, rfl, rfl, rfl, rfl, rfl⟩

theorem memoryFence_expectedResult_witness :
    ExpectedResult .LD 0 = ⟨.MV_UINT32, GetInputValueForWI .LD 0⟩ ∧
    ExpectedResult .ST 0 = ⟨.MV_UINT32, workgroupSizeX - 1⟩ ∧
    ExpectedResult .ST 0 = ⟨.MV_UINT32, 255⟩ ∧
    ExpectedResult .ATOMIC 0 = ⟨.MV_UINT32, 2⟩ ∧
    ExpectedResult .ST 0 = ExpectedResult .ST 1 ∧
    ExpectedResult .ATOMIC 0 = ExpectedResult .ATOMIC 1 :=
  memoryFence_expectedResult 0 1 .ATOMIC (by decide) (by decide)

/-! ## TESTGEN Val (HSAILTestGenVal.cpp)

The emulator's `Val` is a self-describing scalar value: a BRIG type tag plus
raw bits sized to the type (up to 128 bits).  A default-constructed `Val()`
has type `BRIG_TYPE_NONE` and is the distinguished *empty* state.  Vector
`Val`s (2-4 components, `Val::eq` recursing elementwise) are outside the
properties below, which all concern scalars, so the embedding models the
scalar fragment. -/

/-- BRIG scalar type tags used by the emulator and the test-data machinery. -/
inductive BrigType
  | NONE
  | B1
  | B8
  | B16
  | B32
  | B64
  | B128
  | S8
  | S16
  | S32
  | S64
  | U8
  | U16
  | U32
  | U64
  | F16
  | F32
  | F64
deriving DecidableEq

/-- Embedding of a scalar `TESTGEN::Val`: type tag plus raw bits.  The empty
state (`Val()`) is `type = NONE`. -/
structure TGVal where
  type : BrigType
  bits : Nat
deriving DecidableEq

/-- Width of a float type's exponent field (5/8/11 for f16/f32/f64). -/
def floatExpBits : BrigType → Nat
  | .F16 => 5
  | .F32 => 8
  | .F64 => 11
  | _ => 0

/-- Width of a float type's mantissa field (10/23/52 for f16/f32/f64). -/
def floatMantBits : BrigType → Nat
  | .F16 => 10
  | .F32 => 23
  | .F64 => 52
  | _ => 0

/-- Test for the floating types, after `HSAIL_ASM::isFloatType`. -/
def isFloatType : BrigType → Bool
  | .F16 => true
  | .F32 => true
  | .F64 => true
  | _ => false

/-- Bit pattern of the float sign bit for a floating type. -/
def floatSignBit (t : BrigType) : Nat := 2 ^ (floatExpBits t + floatMantBits t)

/-- Magnitude bits of a float value: everything below the sign bit. -/
def floatMagnitude (t : BrigType) (bits : Nat) : Nat :=
  bits % 2 ^ (floatExpBits t + floatMantBits t)

/-- Exponent field of a float bit pattern. -/
def floatExponent (t : BrigType) (bits : Nat) : Nat :=
  (bits / 2 ^ floatMantBits t) % 2 ^ floatExpBits t

/-- Modelled from the spec: IEEE-754 NaN classification of the libHSAIL float
property helpers (`props().isNan()`, not under `src/`): exponent field all
ones and nonzero mantissa.  `Val::isNan` returns `false` for non-float
types (`isFloat() && …`). -/
def TGVal.isNan (v : TGVal) : Bool :=
  isFloatType v.type &&
    (floatExponent v.type v.bits == 2 ^ floatExpBits v.type - 1) &&
    (v.bits % 2 ^ floatMantBits v.type != 0)

/-- Modelled from the spec: IEEE-754 zero classification (`props().isZero()`,
not under `src/`): all bits below the sign bit are zero.  `false` for
non-float types. -/
def TGVal.isZero (v : TGVal) : Bool :=
  isFloatType v.type && (floatMagnitude v.type v.bits == 0)

/-- Modelled from the spec: positive zero has every bit clear, sign included. -/
def TGVal.isPositiveZero (v : TGVal) : Bool :=
  v.isZero && (v.bits % 2 ^ (floatExpBits v.type + floatMantBits v.type + 1)
      < floatSignBit v.type)

/-- Embedding of `Val::getAsB64(idx)`: 64-bit slice `idx` of the raw bits. -/
def TGVal.getAsB64 (v : TGVal) (i : Nat) : Nat := (v.bits / 2 ^ (64 * i)) % 2 ^ 64

/-- Embedding of `Val::empty()`: the default-constructed state has type
`BRIG_TYPE_NONE`. -/
def TGVal.empty (v : TGVal) : Bool := v.type == .NONE

/-- Embedding of the scalar branch of `Val::eq` (HSAILTestGenVal.cpp:374-391):
differing types compare unequal; a NaN receiver compares equal exactly to NaN
arguments (payload and sign ignored); otherwise the raw bits are compared
(`getAsB64(0)` and `getAsB64(1)`). -/
def TGVal.eq (a b : TGVal) : Bool :=
  if a.type != b.type then false
  else if a.isNan then b.isNan
  else (a.getAsB64 0 == b.getAsB64 0) && (a.getAsB64 1 == b.getAsB64 1)

/-- C8: for any two non-empty scalar values of the same floating type,
`Val::eq` returns `true` whenever both are NaN, regardless of NaN payload or
sign; and `Val::eq` of positive zero and negative zero returns `false` even
though `isZero()` is `true` for both. -/
theorem val_eq_nan_selfEqual_signedZero_distinct (t : BrigType) (b1 b2 : Nat)
    (h1 : TGVal.isNan ⟨t, b1⟩ = true) (h2 : TGVal.isNan ⟨t, b2⟩ = true) :
    TGVal.eq ⟨t, b1⟩ ⟨t, b2⟩ = true ∧
    (∀ u : BrigType, isFloatType u = true →
      TGVal.eq ⟨u, 0⟩ ⟨u, floatSignBit u⟩ = false ∧
      TGVal.isZero ⟨u, 0⟩ = true ∧
      TGVal.isZero ⟨u, floatSignBit u⟩ = true) := by
  constructor
  · simp [TGVal.eq, h1, h2]
  · intro u hu
    cases u <;> first
      | exact absurd hu (by decide)
      | decide

theorem val_eq_nan_selfEqual_signedZero_distinct_witness :
    TGVal.eq ⟨.F32, 0x7fc00000⟩ ⟨.F32, 0xffc00001⟩ = true ∧
    (∀ u : BrigType, isFloatType u = true →
      TGVal.eq ⟨u, 0⟩ ⟨u, floatSignBit u⟩ = false ∧
      TGVal.isZero ⟨u, 0⟩ = true ∧
      TGVal.isZero ⟨u, floatSignBit u⟩ = true) :=
  val_eq_nan_selfEqual_signedZero_distinct .F32 0x7fc00000 0xffc00001
    (by decide) (by decide)

/-! ## Non-fatal "no definite answer" results of the emulator
(HSAILTestGenEmulator.cpp:458-467) -/

/-- Embedding of the default-constructed `Val()`. -/
def valDefault : TGVal := ⟨.NONE, 0⟩

/-- Embedding of `undefValue()`: `return Val();` — value returned for
unspecified behaviour. -/
def undefValue : TGVal := valDefault

/-- Embedding of `unimplemented()`: `return Val();` — value returned for
unimplemented features. -/
def unimplemented : TGVal := valDefault

/-- Embedding of `emptyDstValue()`: `return Val();` — value returned when the
instruction has no destination register. -/
def emptyDstValue : TGVal := valDefault

/-- Embedding of `emptyMemValue()`: `return Val();` — value returned when the
instruction does not affect memory. -/
def emptyMemValue : TGVal := valDefault

/-- C3 counterexample: the claim says the three non-fatal "no definite
answer" results are distinguishable from one another by callers, but all the
helpers return the very same default-constructed empty `Val()`, so the
returned values are pairwise equal. -/
theorem emulator_noAnswer_results_all_equal :
    undefValue = unimplemented ∧
    unimplemented = emptyDstValue ∧
    emptyDstValue = emptyMemValue :=
  ⟨rfl, rfl, rfl⟩

/-- C3 (amended): all three non-fatal "no definite answer" results are
returned as one and the same empty `Val` (type `BRIG_TYPE_NONE`); a caller
can tell that no definite answer exists — `empty()` distinguishes the
sentinel from every genuine (typed) value — but cannot tell the three cases
apart from the returned value. -/
theorem emulator_noAnswer_single_empty_sentinel :
    (undefValue.empty = true ∧
      unimplemented = undefValue ∧
      emptyDstValue = undefValue ∧
      emptyMemValue = undefValue) ∧
    (∀ (t : BrigType) (b : Nat), t ≠ .NONE → TGVal.empty ⟨t, b⟩ = false) := by
  refine ⟨⟨rfl, rfl, rfl, rfl⟩, ?_⟩
  intro t b ht
  cases t <;> simp_all [TGVal.empty]

theorem emulator_noAnswer_single_empty_sentinel_witness :
    TGVal.empty ⟨.U32, 0⟩ = false :=
  emulator_noAnswer_single_empty_sentinel.2 .U32 0 (by decide)

/-! ## TestDataProvider operand-slot buckets (HSAILTestGenDataProvider.cpp) -/

/-- The three iteration buckets a registered operand slot can be assigned to
(`constOperands`, `mutableOperands`, `lockedOperands` members of
`TestDataProvider`). -/
inductive TestDataBucket
  | constOperands
  | mutableOperands
  | lockedOperands
deriving DecidableEq

/-- Embedding of the bucket selection in `TestDataProvider::registerOperand`:
`if (isConst && groupImms && !lockConst) generator = &constOperands;
else if (!isConst && groupTests) generator = &mutableOperands;
else generator = &lockedOperands;`. -/
def registerOperandBucket (groupTests groupImms isConst lockConst : Bool) :
    TestDataBucket :=
  if isConst && groupImms && !lockConst then .constOperands
  else if !isConst && groupTests then .mutableOperands
  else .lockedOperands

/-- Bucket policy as the claim words it (for comparison with the source):
constant-foldable with grouping-of-immediates enabled and not lock-const goes
to constants; *otherwise*, when general grouping is enabled the slot goes to
the mutable bucket; otherwise it goes to the locked bucket. -/
def registerOperandBucketClaim (groupTests groupImms isConst lockConst : Bool) :
    TestDataBucket :=
  if isConst && groupImms && !lockConst then .constOperands
  else if groupTests then .mutableOperands
  else .lockedOperands

/-- Embedding of the flag initialization in `TestDataProvider::init`:
`groupTests = grpTests; groupImms = grpTests && grpImms;`. -/
def initGroupFlags (grpTests grpImms : Bool) : Bool × Bool :=
  (grpTests, grpTests && grpImms)

/-- C9 counterexample: a constant-foldable slot registered while
grouping-of-immediates is disabled but general grouping is enabled
(`groupTests = true`, `groupImms = false`, `isConst = true`,
`lockConst = false`, reachable via `init(true, false)`) is placed in the
locked bucket by the code, while the claim's "otherwise, when general
grouping is enabled → mutable" reading places it in the mutable bucket. -/
theorem registerOperand_claim_counterexample :
    registerOperandBucket true false true false = .lockedOperands ∧
    registerOperandBucketClaim true false true false = .mutableOperands ∧
    registerOperandBucket true false true false ≠
      registerOperandBucketClaim true false true false := by
  decide

/-- C9 (amended): a slot that is constant-foldable goes to the constants
bucket exactly when grouping-of-immediates is enabled and the slot is not
lock-const; the mutable bucket receives exactly the slots that are *not*
constant-foldable while general grouping is enabled; every other slot —
including every constant-foldable slot that missed the constants bucket —
goes to the locked bucket.  `init` stores grouping-of-immediates as
`grpTests && grpImms`. -/
theorem registerOperand_bucket_policy (gT gI c l : Bool) :
    (registerOperandBucket gT gI c l = .constOperands ↔
      (c = true ∧ gI = true ∧ l = false)) ∧
    (registerOperandBucket gT gI c l = .mutableOperands ↔
      (c = false ∧ gT = true)) ∧
    (registerOperandBucket gT gI c l = .lockedOperands ↔
      (¬(c = true ∧ gI = true ∧ l = false) ∧ ¬(c = false ∧ gT = true))) ∧
    (initGroupFlags gT gI).2 = (gT && gI) := by
  revert gT gI c l; decide

/-! ## OperandTestDataImpl random-value generation
(HSAILTestGenDataProvider.cpp) -/

/-- `OperandTestData::MAX_RND_TEST_TRY = 256`: maximum number of attempts to
generate the next random value. -/
def MAX_RND_TEST_TRY : Nat := 256

/-- Embedding of `OperandTestDataImpl<T>::eq`: NaN-aware (any two NaNs are
equal), signed-zero-aware (`+0.0` and `-0.0` are different) value equality;
in the remaining cases C++ `val1 == val2` at type `T` coincides with raw-bit
equality (two non-NaN values with one of them zero and the other not, or with
different bit patterns, are numerically different). -/
def catalogEq (val1 val2 : TGVal) : Bool :=
  if val1.isNan || val2.isNan then val1.isNan && val2.isNan
  else if val1.isZero && val2.isZero then val1.isPositiveZero == val2.isPositiveZero
  else val1.bits == val2.bits

/-- Embedding of `OperandTestDataImpl<T>::isStdValue`: scan the standard
values (indices `< size` only — random values live above `size` and are never
scanned) for a `catalogEq`-duplicate. -/
def isStdValue (std : List TGVal) (v : TGVal) : Bool :=
  std.any (fun w => catalogEq v w)

/-- Embedding of the retry loop of `OperandTestDataImpl<T>::addRndValue`:
`for (v = v.randomize(); isStdValue(v) && cnt > 0; v = v.randomize(), --cnt);`.
The successive `randomize()` results are a stream indexed by attempt number;
the function returns the loop's final `cnt` and final `v`. -/
def rndSearch (std : List TGVal) (stream : Nat → TGVal) : Nat → Nat → Nat × TGVal
  | k, 0 => (0, stream k)
  | k, cnt + 1 =>
    if isStdValue std (stream k) then rndSearch std stream (k + 1) cnt
    else (cnt + 1, stream k)

/-- Embedding of `OperandTestDataImpl<T>::addRndValue`: run the retry loop
with `cnt = MAX_RND_TEST_TRY`; keep the final value only when `cnt > 0` on
exit (otherwise the value is silently dropped). -/
def addRndValue (std : List TGVal) (stream : Nat → TGVal) : Option TGVal :=
  let r := rndSearch std stream 0 MAX_RND_TEST_TRY
  if r.1 > 0 then some r.2 else none

/-- Embedding of the random-value phase of the `OperandTestDataImpl`
constructor: `for (i = 0; i < rndTestNum; ++i) rsize = addRndValue(rsize);`,
each call drawing from its own stream of `randomize()` results and appending
the kept value (if any) after the previously kept ones. -/
def addRndValues (std : List TGVal) (streams : Nat → Nat → TGVal)
    (rndTestNum : Nat) : List TGVal :=
  (List.range rndTestNum).foldl
    (fun acc i =>
      match addRndValue std (streams i) with
      | some v => acc ++ [v]
      | none => acc) []

lemma rndSearch_pos_not_std (std : List TGVal) (stream : Nat → TGVal) :
    ∀ (cnt k : Nat), 0 < (rndSearch std stream k cnt).1 →
      isStdValue std (rndSearch std stream k cnt).2 = false := by
  intro cnt
  induction cnt with
  | zero => intro k h; simp [rndSearch] at h
  | succ c ih =>
      intro k h
      by_cases hs : isStdValue std (stream k) = true
      · simp only [rndSearch, hs, if_true] at h ⊢
        exact ih (k + 1) h
      · simp only [Bool.not_eq_true] at hs
        simp [rndSearch, hs]

lemma rndSearch_all_std (std : List TGVal) (stream : Nat → TGVal) :
    ∀ (cnt k : Nat), (∀ j, j < k + cnt → isStdValue std (stream j) = true) →
      (rndSearch std stream k cnt).1 = 0 := by
  intro cnt
  induction cnt with
  | zero => intro k _; simp [rndSearch]
  | succ c ih =>
      intro k hall
      have hk : isStdValue std (stream k) = true :=
        hall k (by omega)
      simp only [rndSearch, hk, if_true]
      exact ih (k + 1) (fun j hj => hall j (by omega))

/-- C10: a retained randomly generated value is distinct (under the catalog's
NaN-aware, signed-zero-aware equality) from every standard value; a random
value that still collides with a standard value after `MAX_RND_TEST_TRY = 256`
generation attempts is silently dropped; and retained random values are not
checked against each other, so two of them may be equal (the concrete run
below keeps the value `1` twice against the standard catalog `{0}`). -/
theorem operandTestData_addRndValue_dedup :
    (∀ (std : List TGVal) (stream : Nat → TGVal) (v : TGVal),
        addRndValue std stream = some v → isStdValue std v = false) ∧
    (∀ (std : List TGVal) (stream : Nat → TGVal),
        (∀ k, k < MAX_RND_TEST_TRY → isStdValue std (stream k) = true) →
        addRndValue std stream = none) ∧
    (addRndValues [⟨.U32, 0⟩] (fun _ _ => ⟨.U32, 1⟩) 2
        = [⟨.U32, 1⟩, ⟨.U32, 1⟩]) := by
  refine ⟨?_, ?_, by decide⟩
  · intro std stream v h
    unfold addRndValue at h
    by_cases hpos : 0 < (rndSearch std stream 0 MAX_RND_TEST_TRY).1
    · simp only [hpos, if_true, Option.some.injEq] at h
      subst h
      exact rndSearch_pos_not_std std stream MAX_RND_TEST_TRY 0 hpos
    · simp [hpos] at h
  · intro std stream hall
    unfold addRndValue
    have h0 : (rndSearch std stream 0 MAX_RND_TEST_TRY).1 = 0 :=
      rndSearch_all_std std stream MAX_RND_TEST_TRY 0
        (fun j hj => hall j (by omega))
    simp [h0]

theorem operandTestData_addRndValue_dedup_witness :
    isStdValue [⟨.U32, 0⟩] ⟨.U32, 1⟩ = false ∧
    addRndValue [⟨.U32, 5⟩] (fun _ => ⟨.U32, 5⟩) = none :=
  ⟨operandTestData_addRndValue_dedup.1 [⟨.U32, 0⟩] (fun _ => ⟨.U32, 1⟩)
      ⟨.U32, 1⟩ rfl,
    operandTestData_addRndValue_dedup.2.1 [⟨.U32, 5⟩] (fun _ => ⟨.U32, 5⟩)
      (fun _ _ => rfl)⟩

/-! ## Emulated floating-point values (HSAILTestGenEmulator.cpp)

The emulator's `cvt` and rounding-test machinery manipulates `f32_t`/`f64_t`
host floats.  The embedding represents a float datum semantically: NaN,
a signed infinity, or a finite value as an exact rational (every IEEE-754
finite value is a dyadic rational).  Float arithmetic on finite values
(`v + round`, `lo += 0.5f`, `boundary - 1`) is modelled by exact rational
arithmetic; the re-rounding a host float would perform on these additions is
not modelled (it is observable only at magnitudes far beyond the values the
verified properties speak about). -/

/-- The host float format a template instantiation of the emulator works in:
`cvt_f2i<f32_t>` or `cvt_f2i<f64_t>` (selected by `cvt_f2x` on the source
type). -/
inductive FloatFmt
  | f32
  | f64
deriving DecidableEq

/-- Semantic model of an `f32_t`/`f64_t` datum. -/
inductive FloatVal
  | nan
  | inf (neg : Bool)
  | fin (q : ℚ)
deriving DecidableEq

namespace FloatVal

/-- NaN test (`Val::isNan`). -/
def isNan : FloatVal → Bool
  | .nan => true
  | _ => false

/-- Zero test (`Val::isZero`); the model does not distinguish `-0.0`
from `+0.0` (the distinction plays no role in the embedded functions). -/
def isZero : FloatVal → Bool
  | .fin q => if q = 0 then true else false
  | _ => false

/-- Sign test (`Val::isNegative`, the IEEE sign bit of a non-NaN value). -/
def isNegative : FloatVal → Bool
  | .fin q => if q < 0 then true else false
  | .inf neg => neg
  | .nan => false

/-- Modelled from the spec: `props().isRegularPositive()` of the libHSAIL
float property helpers (not under `src/`) — positive and not one of the
special values (infinity, NaN). -/
def isRegularPositive : FloatVal → Bool
  | .fin q => if 0 < q then true else false
  | _ => false

/-- Modelled from the spec: `props().isRegularNegative()` — negative and not
one of the special values (infinity, NaN). -/
def isRegularNegative : FloatVal → Bool
  | .fin q => if q < 0 then true else false
  | _ => false

/-- Modelled from the spec: `props().isNatural()` — the value carries no
fractional part. -/
def isNatural : FloatVal → Bool
  | .fin q => if q.den = 1 then true else false
  | .inf _ => true
  | .nan => false

/-- IEEE `≤` (NaN is unordered). -/
def le (a b : FloatVal) : Bool :=
  match a, b with
  | .nan, _ => false
  | _, .nan => false
  | .inf true, _ => true
  | .inf false, .inf false => true
  | .inf false, _ => false
  | .fin _, .inf false => true
  | .fin _, .inf true => false
  | .fin p, .fin q => if p ≤ q then true else false

/-- IEEE `<` (NaN is unordered). -/
def lt (a b : FloatVal) : Bool :=
  match a, b with
  | .nan, _ => false
  | _, .nan => false
  | .inf true, .inf true => false
  | .inf true, _ => true
  | .inf false, _ => false
  | .fin _, .inf false => true
  | .fin _, .inf true => false
  | .fin p, .fin q => if p < q then true else false

/-- Adding a small integer rounding delta to a float datum
(`static_cast<T>(val) + round`); exact on finite values, absorbed by
infinities, propagated by NaN. -/
def addInt : FloatVal → ℤ → FloatVal
  | .fin q, r => .fin (q + r)
  | v, _ => v

end FloatVal

/-- Truncation toward zero of a rational, as a C++ float-to-integer
`static_cast` performs on an in-range value. -/
def truncQ (q : ℚ) : ℤ := if 0 ≤ q then ⌊q⌋ else ⌈q⌉

/-- Fractional part of a rational, `q - ⌊q⌋ ∈ [0, 1)`. -/
def fractQ (q : ℚ) : ℚ := q - ⌊q⌋

/-- Modelled from the spec: `Val::getNormalizedFract(delta)` delegates to the
libHSAIL float property helper `getFractionalOfNormalized` (not under
`src/`), whose comparisons against the fraction of `0.5f` implement
round-to-nearest with ties to an even least significant digit; semantically
the comparison key is the fractional part of `|val| * 2 ^ delta`. -/
def normalizedFract (v : FloatVal) (delta : ℤ) : ℚ :=
  match v with
  | .fin q => fractQ (|q| * (2 : ℚ) ^ delta)
  | _ => 0

/-- The rounding modes of `AluMod` exercised by the float-to-integer
conversions and the rounding-boundary test generator: four families
(to-nearest, toward-zero, downward/floor, upward/ceil), each in plain,
saturating, signaling and signaling-saturating form. -/
inductive Rounding
  | NEARI
  | NEARI_SAT
  | SNEARI
  | SNEARI_SAT
  | ZEROI
  | ZEROI_SAT
  | SZEROI
  | SZEROI_SAT
  | DOWNI
  | DOWNI_SAT
  | SDOWNI
  | SDOWNI_SAT
  | UPI
  | UPI_SAT
  | SUPI
  | SUPI_SAT
deriving DecidableEq

/-- Modelled from the spec: the `AluMod` wrapper of
HSAILTestGenEmulatorTypes.h (not under `src/`) carrying the active rounding
mode. -/
structure AluMod where
  rounding : Rounding
deriving DecidableEq

/-- `AluMod::getRounding()`. -/
def AluMod.getRounding (m : AluMod) : Rounding := m.rounding

/-- Modelled from the spec: `AluMod::isSat()` — the `_SAT` rounding
variants carry the saturating modifier. -/
def AluMod.isSat (m : AluMod) : Bool :=
  match m.rounding with
  | .NEARI_SAT | .SNEARI_SAT | .ZEROI_SAT | .SZEROI_SAT
  | .DOWNI_SAT | .SDOWNI_SAT | .UPI_SAT | .SUPI_SAT => true
  | _ => false

/-- Modelled from the spec: `AluMod::isSignaling()` — the `S`-prefixed
rounding variants are the signaling conversions. -/
def AluMod.isSignaling (m : AluMod) : Bool :=
  match m.rounding with
  | .SNEARI | .SNEARI_SAT | .SZEROI | .SZEROI_SAT
  | .SDOWNI | .SDOWNI_SAT | .SUPI | .SUPI_SAT => true
  | _ => false

/-- Signed-integer type test, after `HSAIL_ASM::isSignedType`. -/
def isSignedType : BrigType → Bool
  | .S8 | .S16 | .S32 | .S64 => true
  | _ => false

/-- Unsigned-integer type test, after `HSAIL_ASM::isUnsignedType`. -/
def isUnsignedType : BrigType → Bool
  | .U8 | .U16 | .U32 | .U64 => true
  | _ => false

/-- Two's-complement 64-bit encoding of an integer, as the C++ code obtains
by returning a (possibly negative) value as `u64_t`. -/
def u64ofInt (i : ℤ) : Nat := (i % (2 ^ 64 : ℤ)).toNat

/-- Embedding of `getIntBoundary` (HSAILTestGenEmulator.cpp:200-217): the
destination integer type's exact representable boundary, returned as
`u64_t` (two's complement for the negative signed boundaries). -/
def getIntBoundary (type : BrigType) (low : Bool) : Nat :=
  match type with
  | .S8 => if low then u64ofInt (-128) else 127
  | .S16 => if low then u64ofInt (-32768) else 32767
  | .S32 => if low then u64ofInt (-2147483648) else 2147483647
  | .S64 => if low then u64ofInt (-9223372036854775808) else 9223372036854775807
  | .U8 => if low then 0 else 255
  | .U16 => if low then 0 else 65535
  | .U32 => if low then 0 else 4294967295
  | .U64 => if low then 0 else 18446744073709551615
  | _ => 0

/-- Embedding of `getTypeBoundary_f32` (HSAILTestGenEmulator.cpp:289-306):
the largest/smallest `f32` value that does not exceed the type's integer
boundary; the hex-encoded constants of the source written out as exact
rationals (for example `MAX_S32_F32 = 0x4effffff = 2^31 - 2^7`). -/
def getTypeBoundary_f32 (type : BrigType) (isLo : Bool) : ℚ :=
  match type with
  | .S8 => if isLo then -128 else 127
  | .S16 => if isLo then -32768 else 32767
  | .S32 => if isLo then -2147483648 else 2147483520
  | .S64 => if isLo then -9223372036854775808 else 9223371487098961920
  | .U8 => if isLo then 0 else 255
  | .U16 => if isLo then 0 else 65535
  | .U32 => if isLo then 0 else 4294967040
  | .U64 => if isLo then 0 else 18446742974197923840
  | _ => 0

/-- Embedding of `getTypeBoundary_f64` (HSAILTestGenEmulator.cpp:308-325),
hex constants written out as exact rationals (for example
`MAX_S64_F64 = 0x43dfffffffffffff = 2^63 - 2^10`). -/
def getTypeBoundary_f64 (type : BrigType) (isLo : Bool) : ℚ :=
  match type with
  | .S8 => if isLo then -128 else 127
  | .S16 => if isLo then -32768 else 32767
  | .S32 => if isLo then -2147483648 else 2147483647
  | .S64 => if isLo then -9223372036854775808 else 9223372036854774784
  | .U8 => if isLo then 0 else 255
  | .U16 => if isLo then 0 else 65535
  | .U32 => if isLo then 0 else 4294967295
  | .U64 => if isLo then 0 else 18446744073709549568
  | _ => 0

/-- Embedding of the templated `getTypeBoundary<T>`: dispatch on the host
float format. -/
def getTypeBoundary : FloatFmt → BrigType → Bool → ℚ
  | .f32, t, isLo => getTypeBoundary_f32 t isLo
  | .f64, t, isLo => getTypeBoundary_f64 t isLo

/-- Embedding of `checkTypeBoundaries` (HSAILTestGenEmulator.cpp:340-348):
the integer part of `val` lies within the type's boundaries —
`(lo <= val || lo - 1 < val) && (val <= hi || val < hi + 1)`. -/
def checkTypeBoundaries (fmt : FloatFmt) (type : BrigType) (val : FloatVal) :
    Bool :=
  (FloatVal.le (.fin (getTypeBoundary fmt type true)) val ||
    FloatVal.lt (.fin (getTypeBoundary fmt type true - 1)) val) &&
  (FloatVal.le val (.fin (getTypeBoundary fmt type false)) ||
    FloatVal.lt val (.fin (getTypeBoundary fmt type false + 1)))

/-- Embedding of `f2i_round` (HSAILTestGenEmulator.cpp:1582-1629): the delta
`d` such that truncating `val + d` yields the correctly rounded integer.
To-nearest rounds away when the fraction exceeds one half and breaks ties to
the even least significant digit; toward-zero never adjusts; ceil adjusts
positive non-integral values up; floor adjusts negative non-integral values
down. -/
def f2i_round (val : FloatVal) (rounding : Rounding) : ℤ :=
  match rounding with
  | .NEARI | .NEARI_SAT | .SNEARI | .SNEARI_SAT =>
    if normalizedFract val 0 > normalizedFract (.fin (1/2)) 0 then
      if val.isNegative then -1 else 1
    else if normalizedFract val 0 = normalizedFract (.fin (1/2)) 0 ∧
        normalizedFract val (-1) > normalizedFract (.fin (1/2)) 0 then
      if val.isNegative then -1 else 1
    else 0
  | .ZEROI | .ZEROI_SAT | .SZEROI | .SZEROI_SAT => 0
  | .UPI | .UPI_SAT | .SUPI | .SUPI_SAT =>
    if val.isRegularPositive && !val.isNatural then 1 else 0
  | .DOWNI | .DOWNI_SAT | .SDOWNI | .SDOWNI_SAT =>
    if val.isRegularNegative && !val.isNatural then -1 else 0

/-- Embedding of `f2i_saturate` (HSAILTestGenEmulator.cpp:1631-1634):
`Val(type, getIntBoundary(type, lowBound))`. -/
def f2i_saturate (type : BrigType) (lowBound : Bool) : TGVal :=
  ⟨type, getIntBoundary type lowBound⟩

/-- Embedding of the `op_fract` functor (HSAILTestGenEmulator.cpp:1232-1262)
on the float model: NaN is preserved, infinities map to (signed) zero, and a
finite value maps to its OpenCL-style fractional part `val - floor(val)` in
`[0, 1)` (computed via `modf`; the exact model never needs the
largest-representable-below-one fallback). -/
def op_fract (val : FloatVal) : FloatVal :=
  match val with
  | .nan => .nan
  | .inf _ => .fin 0
  | .fin q =>
    let res := q - truncQ q
    if 0 < q then .fin res
    else if res = 0 then .fin 0
    else .fin (1 + res)

/-- Embedding of `isIntegral` (HSAILTestGenEmulator.cpp:1637-1642): the
`fract` of the value is zero (note that infinities count as integral). -/
def isIntegral (val : FloatVal) : Bool := (op_fract val).isZero

/-- Embedding of `cvt_f2i<T>` (HSAILTestGenEmulator.cpp:1644-1659), the
float-to-integer conversion: NaN saturates to 0 or is undefined; the rounded
value is checked against the type boundaries and out-of-range results
saturate to the boundary selected by `v <= 0` or are undefined; an inexact
signaling conversion is unimplemented; otherwise the rounded value is
truncated into the destination. -/
def cvt_f2i (fmt : FloatFmt) (type : BrigType) (aluMod : AluMod)
    (val : FloatVal) : TGVal :=
  if val.isNan then (if aluMod.isSat then ⟨type, 0⟩ else undefValue)
  else
    let round := f2i_round val aluMod.getRounding
    let v := val.addInt round
    if !checkTypeBoundaries fmt type v then
      (if aluMod.isSat then f2i_saturate type (FloatVal.le v (.fin 0))
        else undefValue)
    else if aluMod.isSignaling && !isIntegral val then unimplemented
    else if isSignedType type then
      ⟨type, u64ofInt (match v with | .fin q => truncQ q | _ => 0)⟩
    else
      ⟨type, u64ofInt (match v with | .fin q => truncQ q | _ => 0)⟩


lemma normalizedFract_128_zero : normalizedFract (.fin 128) 0 = 0 := by
  simp only [normalizedFract, fractQ]
  norm_num

lemma normalizedFract_neg129_zero : normalizedFract (.fin (-129)) 0 = 0 := by
  simp only [normalizedFract, fractQ]
  norm_num

lemma normalizedFract_half : normalizedFract (.fin (1/2)) 0 = 1/2 := by
  simp only [normalizedFract, fractQ]
  rw [show |(1/2 : ℚ)| * (2 : ℚ) ^ (0 : ℤ) = 1/2 by norm_num]
  rw [show ⌊(1/2 : ℚ)⌋ = 0 by norm_num]
  norm_num

lemma f2i_round_nearisat_128 :
    f2i_round (.fin 128) Rounding.NEARI_SAT = 0 := by
  simp only [f2i_round, normalizedFract_128_zero, normalizedFract_half]
  norm_num

lemma f2i_round_nearisat_neg129 :
    f2i_round (.fin (-129)) Rounding.NEARI_SAT = 0 := by
  simp only [f2i_round, normalizedFract_neg129_zero, normalizedFract_half]
  norm_num

lemma checkTypeBoundaries_s8_128 :
    checkTypeBoundaries .f32 .S8 (.fin 128) = false := by
  simp only [checkTypeBoundaries, getTypeBoundary, getTypeBoundary_f32,
    FloatVal.le, FloatVal.lt]
  norm_num

lemma checkTypeBoundaries_s8_neg129 :
    checkTypeBoundaries .f32 .S8 (.fin (-129)) = false := by
  simp only [checkTypeBoundaries, getTypeBoundary, getTypeBoundary_f32,
    FloatVal.le, FloatVal.lt]
  norm_num

lemma addInt_128_nearisat :
    (FloatVal.fin 128).addInt
      (f2i_round (.fin 128) (AluMod.getRounding ⟨.NEARI_SAT⟩)) = .fin 128 := by
  rw [show f2i_round (.fin 128) (AluMod.getRounding ⟨.NEARI_SAT⟩) = 0 from
    f2i_round_nearisat_128]
  simp [FloatVal.addInt]

lemma cvt_f2i_s8_128 :
    cvt_f2i .f32 .S8 ⟨.NEARI_SAT⟩ (.fin 128) = ⟨.S8, 127⟩ := by
  simp only [cvt_f2i, addInt_128_nearisat, checkTypeBoundaries_s8_128]
  simp [FloatVal.isNan, AluMod.isSat, f2i_saturate, FloatVal.le,
    getIntBoundary]

lemma cvt_f2i_s8_neg129 :
    cvt_f2i .f32 .S8 ⟨.NEARI_SAT⟩ (.fin (-129)) = ⟨.S8, u64ofInt (-128)⟩ := by
  have haddr : (FloatVal.fin (-129)).addInt
      (f2i_round (.fin (-129)) (AluMod.getRounding ⟨.NEARI_SAT⟩)) =
        .fin (-129) := by
    rw [show f2i_round (.fin (-129)) (AluMod.getRounding ⟨.NEARI_SAT⟩) = 0 from
      f2i_round_nearisat_neg129]
    simp [FloatVal.addInt]
  simp only [cvt_f2i, haddr, checkTypeBoundaries_s8_neg129]
  have hle : FloatVal.le (.fin (-129)) (.fin 0) = true := by
    simp only [FloatVal.le]
    norm_num
  simp [FloatVal.isNan, AluMod.isSat, f2i_saturate, hle, getIntBoundary]

lemma addInt_quarter_szeroi :
    (FloatVal.fin (1/4)).addInt
      (f2i_round (.fin (1/4)) (AluMod.getRounding ⟨.SZEROI⟩)) = .fin (1/4) := by
  rw [show f2i_round (.fin (1/4)) (AluMod.getRounding ⟨.SZEROI⟩) = 0 from rfl]
  simp [FloatVal.addInt]

lemma checkTypeBoundaries_s32_quarter :
    checkTypeBoundaries .f32 .S32 (.fin (1/4)) = true := by
  simp only [checkTypeBoundaries, getTypeBoundary, getTypeBoundary_f32,
    FloatVal.le, FloatVal.lt]
  norm_num

lemma isIntegral_quarter : isIntegral (.fin (1/4)) = false := by
  simp only [isIntegral, op_fract, truncQ, FloatVal.isZero]
  norm_num

/-- C4: for every float source value of the floating-to-integer conversion
`cvt_f2i`, a NaN input yields 0 when the saturating modifier is set and
undefined otherwise; an input whose rounded value is out of range yields the
destination integer type's boundary — the low boundary when the rounded value
is non-positive, the high boundary otherwise — when saturating, and undefined
otherwise (in particular `128.0f` to signed-8 nearest-rounding-saturating
yields `127` and `-129.0f` yields `-128`, the latter written in its
two's-complement `u64` encoding); and an in-range signaling conversion whose
source is not an exact integer yields unimplemented. -/
theorem cvt_f2i_nan_saturation_signaling :
    (∀ (fmt : FloatFmt) (type : BrigType) (m : AluMod),
      m.isSat = true → cvt_f2i fmt type m .nan = ⟨type, 0⟩) ∧
    (∀ (fmt : FloatFmt) (type : BrigType) (m : AluMod),
      m.isSat = false → cvt_f2i fmt type m .nan = undefValue) ∧
    (∀ (fmt : FloatFmt) (type : BrigType) (m : AluMod) (val : FloatVal),
      val.isNan = false →
      checkTypeBoundaries fmt type
          (val.addInt (f2i_round val m.getRounding)) = false →
      cvt_f2i fmt type m val =
        (if m.isSat then
          f2i_saturate type
            (FloatVal.le (val.addInt (f2i_round val m.getRounding)) (.fin 0))
        else undefValue)) ∧
    (∀ (type : BrigType) (lowBound : Bool),
      f2i_saturate type lowBound = ⟨type, getIntBoundary type lowBound⟩) ∧
    (cvt_f2i .f32 .S8 ⟨.NEARI_SAT⟩ (.fin 128) = ⟨.S8, 127⟩) ∧
    (cvt_f2i .f32 .S8 ⟨.NEARI_SAT⟩ (.fin (-129)) = ⟨.S8, u64ofInt (-128)⟩) ∧
    (∀ (fmt : FloatFmt) (type : BrigType) (m : AluMod) (val : FloatVal),
      val.isNan = false →
      checkTypeBoundaries fmt type
          (val.addInt (f2i_round val m.getRounding)) = true →
      m.isSignaling = true →
      isIntegral val = false →
      cvt_f2i fmt type m val = unimplemented) := by
  refine ⟨?_, ?_, ?_, fun type lowBound => rfl,
    cvt_f2i_s8_128, cvt_f2i_s8_neg129, ?_⟩
  · intro fmt type m hs
    simp [cvt_f2i, FloatVal.isNan, hs]
  · intro fmt type m hs
    simp [cvt_f2i, FloatVal.isNan, hs]
  · intro fmt type m val hnan hout
    simp [cvt_f2i, hnan, hout]
  · intro fmt type m val hnan hin hsig hint
    simp [cvt_f2i, hnan, hin, hsig, hint]

theorem cvt_f2i_nan_saturation_signaling_witness :
    cvt_f2i .f32 .S8 ⟨.NEARI_SAT⟩ .nan = ⟨.S8, 0⟩ ∧
    cvt_f2i .f32 .S8 ⟨.NEARI⟩ .nan = undefValue ∧
    cvt_f2i .f32 .S8 ⟨.NEARI_SAT⟩ (.fin 128) =
      (if (⟨.NEARI_SAT⟩ : AluMod).isSat then
        f2i_saturate .S8
          (FloatVal.le
            ((FloatVal.fin 128).addInt
              (f2i_round (.fin 128) (AluMod.getRounding ⟨.NEARI_SAT⟩)))
            (.fin 0))
      else undefValue) ∧
    f2i_saturate .S8 true = ⟨.S8, getIntBoundary .S8 true⟩ ∧
    cvt_f2i .f32 .S32 ⟨.SZEROI⟩ (.fin (1/4)) = unimplemented :=
  ⟨cvt_f2i_nan_saturation_signaling.1 .f32 .S8 ⟨.NEARI_SAT⟩ rfl,
    cvt_f2i_nan_saturation_signaling.2.1 .f32 .S8 ⟨.NEARI⟩ rfl,
    cvt_f2i_nan_saturation_signaling.2.2.1 .f32 .S8 ⟨.NEARI_SAT⟩ (.fin 128)
      rfl
      (by rw [addInt_128_nearisat]; exact checkTypeBoundaries_s8_128),
    cvt_f2i_nan_saturation_signaling.2.2.2.1 .S8 true,
    cvt_f2i_nan_saturation_signaling.2.2.2.2.2.2 .f32 .S32 ⟨.SZEROI⟩
      (.fin (1/4)) rfl
      (by rw [addInt_quarter_szeroi]; exact checkTypeBoundaries_s32_quarter)
      rfl isIntegral_quarter⟩

/-! ## Rounding-boundary test data (HSAILTestGenEmulator.cpp:353-421) -/

/-- `ROUNDING_TESTS_NUM = 12` (static const). -/
def ROUNDING_TESTS_NUM : Nat := 12

/-- Embedding of `getRoundingTestsNum`: 12 boundary points for signed and
unsigned integer destination types, a single dummy point otherwise. -/
def getRoundingTestsNum (dstType : BrigType) : Nat :=
  if isSignedType dstType || isUnsignedType dstType then ROUNDING_TESTS_NUM
  else 1

/-- C6: `getRoundingTestsNum` returns exactly 12 when the destination type is
a signed or unsigned integer type, and exactly 1 for any non-integer
destination type. -/
theorem getRoundingTestsNum_twelve_or_one (t u : BrigType)
    (h : isSignedType t = true ∨ isUnsignedType t = true)
    (h2 : isSignedType u = false) (h3 : isUnsignedType u = false) :
    getRoundingTestsNum t = 12 ∧ getRoundingTestsNum u = 1 := by
  constructor
  · rcases h with h | h <;> simp [getRoundingTestsNum, h, ROUNDING_TESTS_NUM]
  · simp [getRoundingTestsNum, h2, h3]

theorem getRoundingTestsNum_twelve_or_one_witness :
    getRoundingTestsNum .S8 = 12 ∧ getRoundingTestsNum .F32 = 1 :=
  getRoundingTestsNum_twelve_or_one .S8 .F32 (Or.inl rfl) rfl rfl

/-- Embedding of the boundary-shift `switch` of `makeRoundingTestsData`
(HSAILTestGenEmulator.cpp:372-407): the to-nearest modes add one half to both
ends; the toward-zero modes add 1 to each end that is strictly positive; the
downward (floor) modes add 1 to both ends; the upward (ceil) modes leave both
ends unchanged. -/
def roundingShift (r : Rounding) (lo hi : ℚ) : ℚ × ℚ :=
  match r with
  | .NEARI | .NEARI_SAT | .SNEARI | .SNEARI_SAT => (lo + 1/2, hi + 1/2)
  | .ZEROI | .ZEROI_SAT | .SZEROI | .SZEROI_SAT =>
    ((if 0 < lo then lo + 1 else lo), (if 0 < hi then hi + 1 else hi))
  | .DOWNI | .DOWNI_SAT | .SDOWNI | .SDOWNI_SAT => (lo + 1, hi + 1)
  | .UPI | .UPI_SAT | .SUPI | .SUPI_SAT => (lo, hi)

/-- Embedding of `makeRoundingTestsData` (HSAILTestGenEmulator.cpp:360-421):
for a non-integer destination a single dummy `0.0`; otherwise the 12 boundary
points built from the type boundaries `lo`/`hi` shifted per the rounding mode
(`roundingShift` captures the mutation of the `switch`).  The `ulp` stepping
function is the libHSAIL float-property `ulp(delta)` helper (not under
`src/`) and is passed as an abstract parameter. -/
def makeRoundingTestsData (ulp : ℚ → ℤ → ℚ) (fmt : FloatFmt)
    (dstType : BrigType) (aluMod : AluMod) : List ℚ :=
  if getRoundingTestsNum dstType = 1 then [0]
  else
    let lo := (roundingShift aluMod.getRounding (getTypeBoundary fmt dstType true)
      (getTypeBoundary fmt dstType false)).1
    let hi := (roundingShift aluMod.getRounding (getTypeBoundary fmt dstType true)
      (getTypeBoundary fmt dstType false)).2
    [lo - 1, ulp (lo - 1) 1, ulp lo (-1), lo, ulp lo 1, lo + 1,
     hi - 1, ulp hi (-1), hi, ulp hi 1, ulp (hi + 1) (-1), hi + 1]

/-- C5 counterexample: the claim says floor and ceil rounding each add 1 to
one end of the `lo`/`hi` boundaries; but at the unsigned-8 boundaries
`lo = 0`, `hi = 255` the floor (`DOWNI`) switch cases add 1 to *both* ends
and the ceil (`UPI`) cases shift *neither* end, so neither mode matches
"exactly one end shifted by 1". -/
theorem makeRoundingTests_floor_ceil_counterexample :
    getTypeBoundary .f32 .U8 true = 0 ∧
    getTypeBoundary .f32 .U8 false = 255 ∧
    roundingShift .DOWNI 0 255 = (1, 256) ∧
    roundingShift .UPI 0 255 = (0, 255) ∧
    ¬(roundingShift .DOWNI 0 255 = (1, 255) ∨
      roundingShift .DOWNI 0 255 = (0, 256)) ∧
    ¬(roundingShift .UPI 0 255 = (1, 255) ∨
      roundingShift .UPI 0 255 = (0, 256)) := by
  refine ⟨rfl, rfl, by norm_num [roundingShift], by norm_num [roundingShift],
    ?_, ?_⟩
  · simp only [roundingShift]
    norm_num
  · simp only [roundingShift]
    norm_num

/-- C5 (amended): for every integer destination type the 12 points of
`makeRoundingTestsData` are built from the boundaries `lo`/`hi` shifted by
the rounding mode as the code's `switch` dictates: the to-nearest modes add
0.5 to both ends; the toward-zero modes add 1 to each strictly positive end —
for the integer destination types the low boundary is never positive and the
high boundary always is, so only the high end moves; the floor modes add 1 to
*both* ends; and the ceil modes shift *neither* end. -/
theorem makeRoundingTestsData_boundary_shifts
    (fmt : FloatFmt) (dstType : BrigType) (m : AluMod) (ulp : ℚ → ℤ → ℚ)
    (hint : isSignedType dstType = true ∨ isUnsignedType dstType = true) :
    (makeRoundingTestsData ulp fmt dstType m =
      (let lo := (roundingShift m.getRounding
          (getTypeBoundary fmt dstType true)
          (getTypeBoundary fmt dstType false)).1
       let hi := (roundingShift m.getRounding
          (getTypeBoundary fmt dstType true)
          (getTypeBoundary fmt dstType false)).2
       [lo - 1, ulp (lo - 1) 1, ulp lo (-1), lo, ulp lo 1, lo + 1,
        hi - 1, ulp hi (-1), hi, ulp hi 1, ulp (hi + 1) (-1), hi + 1])) ∧
    (∀ lo hi : ℚ,
      (roundingShift .NEARI lo hi = (lo + 1/2, hi + 1/2) ∧
        roundingShift .NEARI_SAT lo hi = (lo + 1/2, hi + 1/2) ∧
        roundingShift .SNEARI lo hi = (lo + 1/2, hi + 1/2) ∧
        roundingShift .SNEARI_SAT lo hi = (lo + 1/2, hi + 1/2)) ∧
      (roundingShift .ZEROI lo hi =
          ((if 0 < lo then lo + 1 else lo), (if 0 < hi then hi + 1 else hi)) ∧
        roundingShift .ZEROI_SAT lo hi =
          ((if 0 < lo then lo + 1 else lo), (if 0 < hi then hi + 1 else hi)) ∧
        roundingShift .SZEROI lo hi =
          ((if 0 < lo then lo + 1 else lo), (if 0 < hi then hi + 1 else hi)) ∧
        roundingShift .SZEROI_SAT lo hi =
          ((if 0 < lo then lo + 1 else lo), (if 0 < hi then hi + 1 else hi))) ∧
      (roundingShift .DOWNI lo hi = (lo + 1, hi + 1) ∧
        roundingShift .DOWNI_SAT lo hi = (lo + 1, hi + 1) ∧
        roundingShift .SDOWNI lo hi = (lo + 1, hi + 1) ∧
        roundingShift .SDOWNI_SAT lo hi = (lo + 1, hi + 1)) ∧
      (roundingShift .UPI lo hi = (lo, hi) ∧
        roundingShift .UPI_SAT lo hi = (lo, hi) ∧
        roundingShift .SUPI lo hi = (lo, hi) ∧
        roundingShift .SUPI_SAT lo hi = (lo, hi))) ∧
    (getTypeBoundary fmt dstType true ≤ 0 ∧
      0 < getTypeBoundary fmt dstType false) ∧
    (roundingShift .ZEROI (getTypeBoundary fmt dstType true)
        (getTypeBoundary fmt dstType false) =
      (getTypeBoundary fmt dstType true,
        getTypeBoundary fmt dstType false + 1)) := by
  have hsign : getTypeBoundary fmt dstType true ≤ 0 ∧
      0 < getTypeBoundary fmt dstType false := by
    cases dstType <;> cases fmt <;> first
      | exact absurd hint (by decide)
      | constructor <;>
          norm_num [getTypeBoundary, getTypeBoundary_f32, getTypeBoundary_f64]
  have h12 : ¬(getRoundingTestsNum dstType = 1) := by
    rcases hint with h | h <;>
      simp [getRoundingTestsNum, h, ROUNDING_TESTS_NUM]
  refine ⟨?_, ?_, hsign, ?_⟩
  · simp only [makeRoundingTestsData, if_neg h12]
  · intro lo hi
    exact ⟨⟨rfl, rfl, rfl, rfl⟩, ⟨rfl, rfl, rfl, rfl⟩,
      ⟨rfl, rfl, rfl, rfl⟩, ⟨rfl, rfl, rfl, rfl⟩⟩
  · simp only [roundingShift]
    rw [if_neg (not_lt.mpr hsign.1), if_pos hsign.2]

theorem makeRoundingTestsData_boundary_shifts_witness :
    (makeRoundingTestsData (fun q _ => q) .f32 .U8 ⟨.DOWNI⟩ =
      (let lo := (roundingShift (AluMod.getRounding ⟨.DOWNI⟩)
          (getTypeBoundary .f32 .U8 true) (getTypeBoundary .f32 .U8 false)).1
       let hi := (roundingShift (AluMod.getRounding ⟨.DOWNI⟩)
          (getTypeBoundary .f32 .U8 true) (getTypeBoundary .f32 .U8 false)).2
       [lo - 1, (fun (q : ℚ) (_ : ℤ) => q) (lo - 1) 1,
        (fun (q : ℚ) (_ : ℤ) => q) lo (-1), lo,
        (fun (q : ℚ) (_ : ℤ) => q) lo 1, lo + 1,
        hi - 1, (fun (q : ℚ) (_ : ℤ) => q) hi (-1), hi,
        (fun (q : ℚ) (_ : ℤ) => q) hi 1,
        (fun (q : ℚ) (_ : ℤ) => q) (hi + 1) (-1), hi + 1])) ∧
    (getTypeBoundary .f32 .U8 true ≤ 0 ∧
      0 < getTypeBoundary .f32 .U8 false) ∧
    (roundingShift .ZEROI (getTypeBoundary .f32 .U8 true)
        (getTypeBoundary .f32 .U8 false) =
      (getTypeBoundary .f32 .U8 true, getTypeBoundary .f32 .U8 false + 1)) :=
  have h := makeRoundingTestsData_boundary_shifts .f32 .U8 ⟨.DOWNI⟩
    (fun q _ => q) (Or.inr rfl)
  ⟨h.1, h.2.2.1, h.2.2.2⟩
